import Mathlib

/-!
Formal model of the ResQLink emergency lifecycle backend
(`src/supabase/functions/make-server/index.tsx`).

The server keeps its state in a key-value store: emergency records under
keys `emergency:*`, user profiles under keys `user:*`, and a side list of
active emergency identifiers under the key `emergencies:active`.  We model
the store as three association lists (the key namespaces are disjoint) and
each HTTP handler as a pure function from the state and the request data
to either an error (status code plus message, exactly the pairs the
handler returns) or the new state together with the updated record.
Timestamps, produced in the source by `Date.now()` / `new Date()`, are
modelled as natural numbers (milliseconds); the current time is an
explicit argument.  The authentication step (`supabase.auth.getUser`) is
modelled by passing the authenticated caller (id, metadata) directly; the
401 branch for unauthenticated callers is outside the model.
-/

namespace ResQLink

/-- Authenticated caller: the user id together with the metadata fields
the handlers read (`user_metadata.name`, `.phone`, `.role`, `user.email`). -/
structure UserAuth where
  id : String
  email : String := ""
  name : String := ""
  phone : String := ""
  role : String := ""
  deriving Repr, DecidableEq

/-- Denormalized hospital snapshot copied onto the record at assignment
(the numeric latitude/longitude fields of the snapshot are floating-point
display data untouched by the lifecycle logic and are not modelled). -/
structure HospitalInfo where
  id : String
  name : String
  address : String
  phone : String
  deriving Repr, DecidableEq

/-- An emergency record as built by the handlers.  Fields that a JavaScript
object may lack are `Option`s; `none` is the absent field. -/
structure Emergency where
  id : String
  patientId : String
  patientName : String
  patientPhone : String
  patientEmail : String
  description : String
  status : String
  createdAt : Nat
  updatedAt : Nat
  notes : Option String := none
  ambulanceId : Option String := none
  hospitalId : Option String := none
  assignedAt : Option Nat := none
  estimatedTime : Option String := none
  hospital : Option HospitalInfo := none
  arrivedAtSceneAt : Option Nat := none
  arrivedAtHospitalAt : Option Nat := none
  awaitingPatientConfirmation : Option Bool := none
  patientConfirmedArrival : Option Bool := none
  patientConfirmedArrivalAt : Option Nat := none
  patientConfirmedCompletion : Option Bool := none
  patientConfirmedCompletionAt : Option Nat := none
  hospitalConfirmedArrival : Option Bool := none
  hospitalConfirmedArrivalAt : Option Nat := none
  hospitalConfirmedCompletion : Option Bool := none
  hospitalConfirmedCompletionAt : Option Nat := none
  patientLoadedAt : Option Nat := none
  completedAt : Option Nat := none
  autoAdvanced : Option Bool := none
  autoAdvancedReason : Option String := none
  deriving Repr, DecidableEq

/-- A user profile as stored under `user:*` keys: the fields written at
signup plus the dispatch fields the emergency handlers touch. -/
structure Profile where
  id : String
  email : String := ""
  name : String := ""
  role : String
  phone : String := ""
  hospitalName : Option String := none
  vehicleNumber : Option String := none
  address : Option String := none
  status : String
  currentEmergency : Option String := none
  deriving Repr, DecidableEq

/-- The whole server-visible state: records, profiles (keyed by the user id,
the source prefixes the key with `user:`), and the active-id list stored
under `emergencies:active`. -/
structure ServerState where
  emergencies : List (String × Emergency)
  profiles : List (String × Profile)
  active : List String
  deriving Repr, DecidableEq

/-- `kv.get`: look a key up in an association list. -/
def kvGet {α : Type} : List (String × α) → String → Option α
  | [], _ => none
  | (k', v') :: rest, k => if k' = k then some v' else kvGet rest k

/-- `kv.set`: overwrite the value under a key, or append the binding. -/
def kvSet {α : Type} : List (String × α) → String → α → List (String × α)
  | [], k, v => [(k, v)]
  | (k', v') :: rest, k, v =>
      if k' = k then (k, v) :: rest else (k', v') :: kvSet rest k v

/-- The JavaScript `a || b` fallback on an optional string: an absent or
empty string falls back to the default. -/
def jsOrStr (a : Option String) (b : String) : String :=
  match a with
  | some s => if s = "" then b else s
  | none => b

/-- Truthiness of an optional boolean field: `some true` is the only
truthy value. -/
def jsTrue (b : Option Bool) : Bool :=
  match b with
  | some x => x
  | none => false

/-- Active-index addition as performed on record creation:
`activeEmergencies.push(emergencyId)` — an unconditional append. -/
def activeAdd (l : List String) (id : String) : List String :=
  l ++ [id]

/-- Active-index removal as performed on terminal transitions:
`activeEmergencies.filter(id => id !== emergencyId)`. -/
def activeRemove (l : List String) (id : String) : List String :=
  l.filter (fun i => i ≠ id)

/-- An error response: HTTP status code and the JSON error message. -/
structure ApiErr where
  code : Nat
  message : String
  deriving Repr, DecidableEq

def recordNotFound : ApiErr := ⟨404, "Emergency not found"⟩

def forbiddenArrival : ApiErr := ⟨403, "Only the patient can confirm arrival"⟩

def errNotInScene : ApiErr := ⟨400, "Emergency is not in arrived_at_scene status"⟩

def forbiddenCompletion : ApiErr := ⟨403, "Only the patient or hospital can confirm completion"⟩

def errNotInHospital : ApiErr := ⟨400, "Emergency is not in arrived_at_hospital status"⟩

def accessDenied : ApiErr := ⟨403, "Access denied"⟩

def timeoutNotReached : ApiErr := ⟨400, "Timeout period has not passed yet (30 minutes required)"⟩

def onlyHospitals : ApiErr := ⟨403, "Only hospitals can use this endpoint"⟩

def invalidConfirmationType : ApiErr := ⟨400, "Invalid confirmation type"⟩

/-- Result of a handler: an error response, or the new state with the
record the handler returns in its success payload. -/
abbrev HandlerResult := Except ApiErr (ServerState × Emergency)

/-- The ambulance-release block repeated on every terminal transition:
`if (emergency.ambulanceId) { profile.status = available; profile.currentEmergency = null }`,
tolerating a missing profile.  The empty string is falsy in the source. -/
def releaseAmbulance (s : ServerState) (ambulanceId : Option String) : ServerState :=
  match ambulanceId with
  | some aid =>
      if aid = "" then s
      else
        match kvGet s.profiles aid with
        | some ap =>
            let ap2 := { ap with status := "available", currentEmergency := none }
            { s with profiles := kvSet s.profiles aid ap2 }
        | none => s
  | none => s

/-- `POST /emergency`: create a record with status `pending` and push its
id onto the active list.  The id embeds the creation time and the
caller's id (`emergency:TIME:USER`). -/
def createEmergency (s : ServerState) (caller : UserAuth) (now : Nat)
    (patientName patientPhone : Option String) (description : String) :
    ServerState × Emergency :=
  let emergencyId := "emergency:" ++ toString now ++ ":" ++ caller.id
  let e : Emergency := {
    id := emergencyId
    patientId := caller.id
    patientName := jsOrStr patientName caller.name
    patientPhone := jsOrStr patientPhone caller.phone
    patientEmail := caller.email
    description := description
    status := "pending"
    createdAt := now
    updatedAt := now }
  ({ s with emergencies := kvSet s.emergencies emergencyId e,
            active := activeAdd s.active emergencyId }, e)

/-- `POST /emergency/:id/assign`: look the record up (404 if missing), set
status `assigned` and the unit/facility ids (falling back to the caller's
id), copy a facility snapshot when the facility profile resolves with the
hospital role, then best-effort mark the ambulance profile busy. -/
def assignEmergency (s : ServerState) (caller : UserAuth) (emergencyId : String)
    (ambulanceId hospitalId estimatedTime : Option String) (now : Nat) :
    HandlerResult :=
  match kvGet s.emergencies emergencyId with
  | none => .error recordNotFound
  | some e0 =>
    let ambulanceUserId := jsOrStr ambulanceId caller.id
    let hospitalUserId := jsOrStr hospitalId caller.id
    let e1 := { e0 with
      status := "assigned"
      ambulanceId := some ambulanceUserId
      hospitalId := some hospitalUserId
      assignedAt := some now
      estimatedTime := estimatedTime
      updatedAt := now }
    let e2 :=
      match kvGet s.profiles hospitalUserId with
      | some hp =>
          if hp.role = "hospital" then
            { e1 with hospital := some {
                id := hp.id
                name := jsOrStr hp.hospitalName hp.name
                address := jsOrStr hp.address "Hospital Address"
                phone := if hp.phone = "" then "N/A" else hp.phone } }
          else e1
      | none => e1
    let s1 := { s with emergencies := kvSet s.emergencies emergencyId e2 }
    let s2 :=
      match kvGet s1.profiles ambulanceUserId with
      | some ap =>
          let ap2 := { ap with status := "busy", currentEmergency := some emergencyId }
          { s1 with profiles := kvSet s1.profiles ambulanceUserId ap2 }
      | none => s1
    .ok (s2, e2)

/-- `PATCH /emergency/:id/status`: look the record up (404 if missing) and
set `status` to the requested target unconditionally.  Entering
`arrived_at_scene` or `arrived_at_hospital` stamps the gate timestamp and
sets `awaitingPatientConfirmation`; entering `completed` or `cancelled`
stamps `completedAt`, filters the id out of the active list and releases
the ambulance. -/
def updateEmergencyStatus (s : ServerState) (emergencyId target : String)
    (notes : Option String) (now : Nat) : HandlerResult :=
  match kvGet s.emergencies emergencyId with
  | none => .error recordNotFound
  | some e0 =>
    let e1 := { e0 with
      status := target
      updatedAt := now
      notes := match notes with
        | some n => if n = "" then e0.notes else some n
        | none => e0.notes }
    let e2 := if target = "arrived_at_scene" then
        { e1 with arrivedAtSceneAt := some now, awaitingPatientConfirmation := some true }
      else e1
    let e3 := if target = "arrived_at_hospital" then
        { e2 with arrivedAtHospitalAt := some now, awaitingPatientConfirmation := some true }
      else e2
    if target = "completed" ∨ target = "cancelled" then
      let e4 := { e3 with completedAt := some now }
      let s1 := { s with active := activeRemove s.active emergencyId }
      let s2 := releaseAmbulance s1 e4.ambulanceId
      .ok ({ s2 with emergencies := kvSet s2.emergencies emergencyId e4 }, e4)
    else
      .ok ({ s with emergencies := kvSet s.emergencies emergencyId e3 }, e3)

/-- `POST /emergency/:id/confirm-arrival`: only the record's patient may
call it (403), only from `arrived_at_scene` (400); on success set
`patientConfirmedArrival`, clear the awaiting flag and advance to
`patient_loaded`. -/
def confirmArrival (s : ServerState) (caller : UserAuth) (emergencyId : String)
    (now : Nat) : HandlerResult :=
  match kvGet s.emergencies emergencyId with
  | none => .error recordNotFound
  | some e =>
    if e.patientId ≠ caller.id then .error forbiddenArrival
    else if e.status ≠ "arrived_at_scene" then .error errNotInScene
    else
      let e1 := { e with
        patientConfirmedArrival := some true
        patientConfirmedArrivalAt := some now
        awaitingPatientConfirmation := some false
        status := "patient_loaded"
        patientLoadedAt := some now
        updatedAt := now }
      .ok ({ s with emergencies := kvSet s.emergencies emergencyId e1 }, e1)

/-- `POST /emergency/:id/confirm-completion`: the record's patient or the
record's hospital may call it (403 otherwise), only from
`arrived_at_hospital` (400); on success set `patientConfirmedCompletion`,
clear the awaiting flag, advance to `completed`, retire the id from the
active list and release the ambulance. -/
def confirmCompletion (s : ServerState) (caller : UserAuth) (emergencyId : String)
    (now : Nat) : HandlerResult :=
  match kvGet s.emergencies emergencyId with
  | none => .error recordNotFound
  | some e =>
    if e.patientId ≠ caller.id ∧ e.hospitalId ≠ some caller.id then
      .error forbiddenCompletion
    else if e.status ≠ "arrived_at_hospital" then .error errNotInHospital
    else
      let e1 := { e with
        patientConfirmedCompletion := some true
        patientConfirmedCompletionAt := some now
        awaitingPatientConfirmation := some false
        status := "completed"
        completedAt := some now
        updatedAt := now }
      let s1 := { s with emergencies := kvSet s.emergencies emergencyId e1 }
      let s2 := { s1 with active := activeRemove s1.active emergencyId }
      let s3 := releaseAmbulance s2 e1.ambulanceId
      .ok (s3, e1)

/-- The timeout threshold of the auto-advance handler, in minutes. -/
def TIMEOUT_MINUTES : Nat := 30

/-- `POST /emergency/:id/timeout-advance`: callable by ambulance or
hospital roles (403 otherwise).  In a gate status with the gate timestamp
present and at least 30 minutes elapsed, mark the corresponding patient
confirmation `false`, set `autoAdvanced` with a reason and advance past
the gate (retiring the record and releasing the ambulance at the second
gate); in every other case report that the timeout has not been reached.
The source compares `(now - arrivedTime) / 60000 >= 30`, which for the
integral millisecond clock used here is `arrivedTime + 30*60*1000 ≤ now`. -/
def timeoutAdvance (s : ServerState) (caller : UserAuth) (emergencyId : String)
    (now : Nat) : HandlerResult :=
  match kvGet s.emergencies emergencyId with
  | none => .error recordNotFound
  | some e =>
    if caller.role ≠ "ambulance" ∧ caller.role ≠ "hospital" then .error accessDenied
    else
      let advanced : Option (ServerState × Emergency) :=
        if e.status = "arrived_at_scene" then
          match e.arrivedAtSceneAt with
          | some arrivedTime =>
              if arrivedTime + TIMEOUT_MINUTES * 60 * 1000 ≤ now then
                let e1 := { e with
                  patientConfirmedArrival := some false
                  autoAdvanced := some true
                  autoAdvancedReason := some "Patient confirmation timeout after 30 minutes"
                  awaitingPatientConfirmation := some false
                  status := "patient_loaded"
                  patientLoadedAt := some now
                  updatedAt := now }
                some ({ s with emergencies := kvSet s.emergencies emergencyId e1 }, e1)
              else none
          | none => none
        else if e.status = "arrived_at_hospital" then
          match e.arrivedAtHospitalAt with
          | some arrivedTime =>
              if arrivedTime + TIMEOUT_MINUTES * 60 * 1000 ≤ now then
                let e1 := { e with
                  patientConfirmedCompletion := some false
                  autoAdvanced := some true
                  autoAdvancedReason := some "Completion confirmation timeout after 30 minutes"
                  awaitingPatientConfirmation := some false
                  status := "completed"
                  completedAt := some now
                  updatedAt := now }
                let s1 := { s with active := activeRemove s.active emergencyId }
                let s2 := releaseAmbulance s1 e1.ambulanceId
                some ({ s2 with emergencies := kvSet s2.emergencies emergencyId e1 }, e1)
              else none
          | none => none
        else none
      match advanced with
      | none => .error timeoutNotReached
      | some r => .ok r

/-- `POST /emergency/:id/hospital-confirm`: only hospital-role callers
(403); `confirmationType` selects the gate; the state check and the
advance mirror the direct confirmations but set the hospital-attributed
flags. -/
def hospitalConfirm (s : ServerState) (caller : UserAuth) (emergencyId : String)
    (confirmationType : String) (now : Nat) : HandlerResult :=
  match kvGet s.emergencies emergencyId with
  | none => .error recordNotFound
  | some e =>
    if caller.role ≠ "hospital" then .error onlyHospitals
    else if confirmationType = "arrival" then
      if e.status ≠ "arrived_at_scene" then .error errNotInScene
      else
        let e1 := { e with
          hospitalConfirmedArrival := some true
          hospitalConfirmedArrivalAt := some now
          awaitingPatientConfirmation := some false
          status := "patient_loaded"
          patientLoadedAt := some now
          updatedAt := now }
        .ok ({ s with emergencies := kvSet s.emergencies emergencyId e1 }, e1)
    else if confirmationType = "completion" then
      if e.status ≠ "arrived_at_hospital" then .error errNotInHospital
      else
        let e1 := { e with
          hospitalConfirmedCompletion := some true
          hospitalConfirmedCompletionAt := some now
          awaitingPatientConfirmation := some false
          status := "completed"
          completedAt := some now
          updatedAt := now }
        let s1 := { s with active := activeRemove s.active emergencyId }
        let s2 := releaseAmbulance s1 e1.ambulanceId
        .ok ({ s2 with emergencies := kvSet s2.emergencies emergencyId e1 }, e1)
    else .error invalidConfirmationType

/-- Extract the new state from a handler result, with a default for the
error case (used only to chain concrete scenarios). -/
def resState (r : HandlerResult) (d : ServerState) : ServerState :=
  match r with
  | .ok p => p.1
  | .error _ => d

/-- The status of the returned record, when the handler succeeded. -/
def resStatus (r : HandlerResult) : Option String :=
  match r with
  | .ok p => some p.2.status
  | .error _ => none

/-- The record returned on success. -/
def resRecord (r : HandlerResult) : Option Emergency :=
  match r with
  | .ok p => some p.2
  | .error _ => none

/-! Lifecycle invariants stated by the specification. -/

/-- Terminal statuses are `completed` and `cancelled`. -/
def nonTerminal (st : String) : Prop :=
  st ≠ "completed" ∧ st ≠ "cancelled"

instance (st : String) : Decidable (nonTerminal st) := by
  unfold nonTerminal; infer_instance

/-- The arrival-confirmation flag, in either attribution. -/
def arrivalConfirmedProp (e : Emergency) : Prop :=
  e.patientConfirmedArrival = some true ∨ e.hospitalConfirmedArrival = some true

instance (e : Emergency) : Decidable (arrivalConfirmedProp e) := by
  unfold arrivalConfirmedProp; infer_instance

/-- The completion-confirmation flag, in either attribution. -/
def completionConfirmedProp (e : Emergency) : Prop :=
  e.patientConfirmedCompletion = some true ∨ e.hospitalConfirmedCompletion = some true

instance (e : Emergency) : Decidable (completionConfirmedProp e) := by
  unfold completionConfirmedProp; infer_instance

/-- The specified awaiting-confirmation invariant on one record:
`awaitingConfirmation` is set exactly when the record sits at one of the
two gates with the corresponding confirmation flag still unset. -/
def awaitingInv (e : Emergency) : Prop :=
  e.awaitingPatientConfirmation = some true ↔
    ((e.status = "arrived_at_scene" ∧ ¬ arrivalConfirmedProp e) ∨
     (e.status = "arrived_at_hospital" ∧ ¬ completionConfirmedProp e))

instance (e : Emergency) : Decidable (awaitingInv e) := by
  unfold awaitingInv; infer_instance

/-- The awaiting-confirmation invariant over every stored record. -/
def stateAwaitingInv (s : ServerState) : Prop :=
  ∀ pr ∈ s.emergencies, awaitingInv pr.2

instance (s : ServerState) : Decidable (stateAwaitingInv s) := by
  unfold stateAwaitingInv; exact List.decidableBAll _ _

/-- The active-index invariant: a stored record's key is on the active
list exactly when its status is non-terminal. -/
def activeInv (s : ServerState) : Prop :=
  ∀ pr ∈ s.emergencies, (pr.1 ∈ s.active ↔ nonTerminal pr.2.status)

instance (s : ServerState) : Decidable (activeInv s) := by
  unfold activeInv; exact List.decidableBAll _ _

/-- The store holds at most one binding per key. -/
def kvNodup {α : Type} (l : List (String × α)) : Prop :=
  (l.map Prod.fst).Nodup

instance {α : Type} (l : List (String × α)) : Decidable (kvNodup l) := by
  unfold kvNodup; infer_instance

/-! A concrete lifecycle walk used to instantiate the theorems: patient
`p1` creates a record, hospital `h1` assigns ambulance `u1`, the record
advances through the state machine. -/

def demoPatient : UserAuth :=
  { id := "p1", email := "p@x", name := "Pat", phone := "111", role := "user" }

def demoAmbulance : UserAuth :=
  { id := "u1", email := "a@x", name := "Amb", phone := "222", role := "ambulance" }

def demoHospital : UserAuth :=
  { id := "h1", email := "h@x", name := "Hos", phone := "333", role := "hospital" }

def demoAmbProfile : Profile :=
  { id := "u1", role := "ambulance", status := "available" }

def demoAmb2Profile : Profile :=
  { id := "u2", role := "ambulance", status := "available" }

def demoHosProfile : Profile :=
  { id := "h1", role := "hospital", status := "active", hospitalName := some "General" }

def demoState0 : ServerState :=
  { emergencies := [],
    profiles := [("u1", demoAmbProfile), ("u2", demoAmb2Profile), ("h1", demoHosProfile)],
    active := [] }

def demoId : String := "emergency:1000:p1"

def demoCreated : ServerState :=
  (createEmergency demoState0 demoPatient 1000 none none "help").1

def demoAssigned : ServerState :=
  resState (assignEmergency demoCreated demoHospital demoId
    (some "u1") (some "h1") (some "10 mins") 2000) demoState0

def demoEnroute : ServerState :=
  resState (updateEmergencyStatus demoAssigned demoId "enroute" none 3000) demoState0

def demoAtScene : ServerState :=
  resState (updateEmergencyStatus demoEnroute demoId "arrived_at_scene" none 4000) demoState0

def demoCancelled : ServerState :=
  resState (updateEmergencyStatus demoAtScene demoId "cancelled" none 5000) demoState0

def demoLoaded : ServerState :=
  resState (confirmArrival demoAtScene demoPatient demoId 6000) demoState0

def demoEnrouteHospital : ServerState :=
  resState (updateEmergencyStatus demoLoaded demoId "enroute_to_hospital" none 7000) demoState0

def demoAtHospital : ServerState :=
  resState (updateEmergencyStatus demoEnrouteHospital demoId "arrived_at_hospital" none 8000) demoState0

/-- A record sitting at the first gate without its gate-entry timestamp
(such a record can predate the timestamp-stamping code; the handler must
still refuse to auto-advance it). -/
def stamplessSceneRec : Emergency :=
  { id := "emergency:42:p9", patientId := "p9", patientName := "X",
    patientPhone := "1", patientEmail := "x@x", description := "d",
    status := "arrived_at_scene", createdAt := 42, updatedAt := 42 }

/-- A record sitting at the second gate without its gate-entry timestamp. -/
def stamplessHospitalRec : Emergency :=
  { id := "emergency:43:p9", patientId := "p9", patientName := "X",
    patientPhone := "1", patientEmail := "x@x", description := "d",
    status := "arrived_at_hospital", createdAt := 43, updatedAt := 43 }

/-- The assigned record re-assigned to a second unit `u2` (the assign
handler has no pending check, so this succeeds). -/
def demoReassigned : ServerState :=
  resState (assignEmergency demoAssigned demoHospital demoId
    (some "u2") (some "h1") none 2500) demoState0

/-- The re-assigned record driven to `completed` by an advance-status
call. -/
def demoReassignCompleted : ServerState :=
  resState (updateEmergencyStatus demoReassigned demoId "completed" none 9000) demoState0

def stamplessState : ServerState :=
  { emergencies := [("emergency:42:p9", stamplessSceneRec),
                    ("emergency:43:p9", stamplessHospitalRec)],
    profiles := [],
    active := ["emergency:42:p9", "emergency:43:p9"] }

/-! Store lemmas. -/

theorem kvGet_kvSet {α : Type} (l : List (String × α)) (k k' : String) (v : α) :
    kvGet (kvSet l k v) k' = if k' = k then some v else kvGet l k' := by
  induction l with
  | nil =>
      by_cases h : k' = k
      · subst h; simp [kvSet, kvGet]
      · simp [kvSet, kvGet, h, Ne.symm h]
  | cons hd tl ih =>
      obtain ⟨a, b⟩ := hd
      by_cases hak : a = k
      · subst hak
        by_cases h : k' = a
        · subst h; simp [kvSet, kvGet]
        · simp [kvSet, kvGet, h, Ne.symm h]
      · by_cases h : a = k'
        · subst h
          simp [kvSet, kvGet, hak, Ne.symm hak]
        · simp [kvSet, kvGet, hak, h, ih]

theorem kvGet_kvSet_self {α : Type} (l : List (String × α)) (k : String) (v : α) :
    kvGet (kvSet l k v) k = some v := by
  simp [kvGet_kvSet]

theorem kvGet_kvSet_ne {α : Type} (l : List (String × α)) {k k' : String} (v : α)
    (h : k' ≠ k) : kvGet (kvSet l k v) k' = kvGet l k' := by
  simp [kvGet_kvSet, h]

theorem mem_kvSet {α : Type} {l : List (String × α)} {k : String} {v : α} {pr : String × α}
    (h : pr ∈ kvSet l k v) : pr = (k, v) ∨ pr ∈ l := by
  induction l with
  | nil => simp [kvSet] at h; simp [h]
  | cons hd tl ih =>
      obtain ⟨a, b⟩ := hd
      by_cases hak : a = k
      · subst hak
        simp [kvSet] at h
        rcases h with h | h
        · exact Or.inl h
        · exact Or.inr (by simp [h])
      · simp [kvSet, hak] at h
        rcases h with h | h
        · exact Or.inr (by simp [h])
        · rcases ih h with h' | h'
          · exact Or.inl h'
          · exact Or.inr (by simp [h'])

theorem kvNodup_cons {α : Type} {a : String} {b : α} {tl : List (String × α)}
    (hnd : kvNodup ((a, b) :: tl)) :
    (∀ pr ∈ tl, pr.1 ≠ a) ∧ kvNodup tl := by
  have h : (∀ x : α, (a, x) ∉ tl) ∧ (List.map Prod.fst tl).Nodup := by
    simpa [kvNodup] using hnd
  constructor
  · intro pr hpr hpa
    have hm : (pr.1, pr.2) ∈ tl := by simpa using hpr
    rw [hpa] at hm
    exact h.1 pr.2 hm
  · simpa [kvNodup] using h.2

theorem mem_kvSet_nodup {α : Type} {l : List (String × α)} {k : String} {v : α}
    {pr : String × α} (hnd : kvNodup l) (h : pr ∈ kvSet l k v) :
    pr = (k, v) ∨ (pr ∈ l ∧ pr.1 ≠ k) := by
  induction l with
  | nil => simp [kvSet] at h; simp [h]
  | cons hd tl ih =>
      obtain ⟨a, b⟩ := hd
      obtain ⟨hka, hnd'⟩ := kvNodup_cons hnd
      by_cases hak : a = k
      · subst hak
        simp only [kvSet, if_pos rfl] at h
        rcases List.mem_cons.mp h with h | h
        · exact Or.inl h
        · exact Or.inr ⟨List.mem_cons_of_mem _ h, hka pr h⟩
      · simp only [kvSet, hak, if_false] at h
        rcases List.mem_cons.mp h with h | h
        · exact Or.inr ⟨List.mem_cons.mpr (Or.inl h), by simp [h, hak]⟩
        · rcases ih hnd' h with h' | h'
          · exact Or.inl h'
          · exact Or.inr ⟨List.mem_cons_of_mem _ h'.1, h'.2⟩

theorem kvNodup_of_parts {α : Type} {l : List (String × α)} {a : String} {b : α}
    (hka : ∀ pr ∈ l, pr.1 ≠ a) (hnd : kvNodup l) : kvNodup ((a, b) :: l) := by
  unfold kvNodup
  rw [List.map_cons]
  refine List.nodup_cons.mpr ⟨?_, by simpa [kvNodup] using hnd⟩
  intro hmem
  rcases List.mem_map.mp hmem with ⟨pr, hpr, hfst⟩
  exact hka pr hpr hfst

theorem kvNodup_kvSet {α : Type} {l : List (String × α)} (hnd : kvNodup l)
    (k : String) (v : α) : kvNodup (kvSet l k v) := by
  induction l with
  | nil =>
      simp only [kvSet]
      exact kvNodup_of_parts (by simp) (by simp [kvNodup])
  | cons hd tl ih =>
      obtain ⟨a, b⟩ := hd
      obtain ⟨hka, hnd'⟩ := kvNodup_cons hnd
      by_cases hak : a = k
      · subst hak
        simp only [kvSet, if_pos rfl]
        exact kvNodup_of_parts hka hnd'
      · simp only [kvSet, hak, if_false]
        refine kvNodup_of_parts ?_ (ih hnd')
        intro pr hpr
        rcases mem_kvSet hpr with h' | h'
        · simp [h', Ne.symm hak]
        · exact hka pr h'

theorem kvGet_eq_of_mem_nodup {α : Type} {l : List (String × α)} {pr : String × α}
    (hnd : kvNodup l) (h : pr ∈ l) : kvGet l pr.1 = some pr.2 := by
  induction l with
  | nil => simp at h
  | cons hd tl ih =>
      obtain ⟨a, b⟩ := hd
      obtain ⟨hka, hnd'⟩ := kvNodup_cons hnd
      rcases List.mem_cons.mp h with h' | h'
      · simp [h', kvGet]
      · have hne : a ≠ pr.1 := Ne.symm (hka pr h')
        simp [kvGet, hne, ih hnd' h']

theorem mem_activeAdd {l : List String} {id a : String} :
    a ∈ activeAdd l id ↔ a ∈ l ∨ a = id := by
  simp [activeAdd]

theorem mem_activeRemove {l : List String} {id a : String} :
    a ∈ activeRemove l id ↔ a ∈ l ∧ a ≠ id := by
  simp [activeRemove]

theorem releaseAmbulance_emergencies (s : ServerState) (o : Option String) :
    (releaseAmbulance s o).emergencies = s.emergencies := by
  unfold releaseAmbulance
  rcases o with _ | aid
  · rfl
  · by_cases h : aid = ""
    · simp [h]
    · simp only [h, if_false]
      rcases kvGet s.profiles aid with _ | ap <;> rfl

theorem releaseAmbulance_active (s : ServerState) (o : Option String) :
    (releaseAmbulance s o).active = s.active := by
  unfold releaseAmbulance
  rcases o with _ | aid
  · rfl
  · by_cases h : aid = ""
    · simp [h]
    · simp only [h, if_false]
      rcases kvGet s.profiles aid with _ | ap <;> rfl

theorem releaseAmbulance_profile {s : ServerState} {aid : String} {ap : Profile}
    (hne : aid ≠ "") (hp : kvGet s.profiles aid = some ap) :
    kvGet (releaseAmbulance s (some aid)).profiles aid =
      some { ap with status := "available", currentEmergency := none } := by
  unfold releaseAmbulance
  simp [hne, hp, kvGet_kvSet_self]

/-! Claim theorems. -/

/-- C1 counterexample: the claim says every advance-status call on a
`cancelled` record fails with `InvalidTransition`.  In `demoCancelled`
(reached by create, assign, two legal advances and a cancel) the record
is `cancelled`, yet a further advance-status call to `enroute` succeeds
and sets the status. -/
theorem c1_counterexample :
    (kvGet demoCancelled.emergencies demoId).map Emergency.status = some "cancelled" ∧
    resStatus (updateEmergencyStatus demoCancelled demoId "enroute" none 6000) =
      some "enroute" := by
  exact ⟨rfl, rfl⟩

/-- C1 amended: the advance-status handler fails with `RecordNotFound`
when the identifier does not resolve, and otherwise succeeds and sets
`status` to the requested target unconditionally — it performs no
transition validation at all and never returns an `InvalidTransition`
error, so calls after `cancelled` also mutate the record. -/
theorem c1_advanceStatus_no_validation (s : ServerState) (emergencyId target : String)
    (notes : Option String) (now : Nat) :
    (kvGet s.emergencies emergencyId = none →
      updateEmergencyStatus s emergencyId target notes now = .error recordNotFound) ∧
    (kvGet s.emergencies emergencyId ≠ none →
      ∃ p, updateEmergencyStatus s emergencyId target notes now = .ok p ∧
        p.2.status = target) := by
  constructor
  · intro h
    simp [updateEmergencyStatus, h]
  · intro h
    obtain ⟨e, he⟩ := Option.ne_none_iff_exists'.mp h
    simp only [updateEmergencyStatus, he]
    by_cases ht : target = "completed" ∨ target = "cancelled" <;>
      by_cases h1 : target = "arrived_at_scene" <;>
      by_cases h2 : target = "arrived_at_hospital" <;>
      simp [ht, h1, h2]

/-- C1 witness: both branches of the amended theorem at concrete inputs. -/
theorem c1_advanceStatus_no_validation_witness :
    (updateEmergencyStatus demoCancelled "nope" "enroute" none 1 = .error recordNotFound) ∧
    (∃ p, updateEmergencyStatus demoCancelled demoId "enroute" none 6000 = .ok p ∧
      p.2.status = "enroute") := by
  exact ⟨(c1_advanceStatus_no_validation demoCancelled "nope" "enroute" none 1).1 rfl,
    (c1_advanceStatus_no_validation demoCancelled demoId "enroute" none 6000).2
      (by decide)⟩

/-- C3 counterexample: the claim says `assign` on a record that is not
`pending` fails with `AlreadyAssigned` and leaves the record unchanged.
In `demoAssigned` the record is already `assigned` to unit `u1`, yet a
second assign call succeeds and overwrites the unit with `u2`. -/
theorem c3_counterexample :
    (kvGet demoAssigned.emergencies demoId).map Emergency.status = some "assigned" ∧
    (kvGet demoAssigned.emergencies demoId).map Emergency.ambulanceId =
      some (some "u1") ∧
    resStatus (assignEmergency demoAssigned demoHospital demoId
      (some "u2") (some "h1") none 2500) = some "assigned" ∧
    (resRecord (assignEmergency demoAssigned demoHospital demoId
      (some "u2") (some "h1") none 2500)).map Emergency.ambulanceId =
      some (some "u2") := by
  exact ⟨rfl, rfl, rfl, rfl⟩

/-- C3 amended: `assign` fails with `RecordNotFound` when the identifier
does not resolve; otherwise it succeeds regardless of the record's
current status — there is no `pending` precondition and no
`AlreadyAssigned` error, so both of two successive assign calls on the
same record succeed, the second overwriting the first assignment. -/
theorem c3_assign_no_pending_check (s : ServerState) (caller : UserAuth)
    (emergencyId : String) (ambulanceId hospitalId estimatedTime : Option String)
    (now : Nat) :
    (kvGet s.emergencies emergencyId = none →
      assignEmergency s caller emergencyId ambulanceId hospitalId estimatedTime now =
        .error recordNotFound) ∧
    (kvGet s.emergencies emergencyId ≠ none →
      ∃ p, assignEmergency s caller emergencyId ambulanceId hospitalId estimatedTime now =
          .ok p ∧ p.2.status = "assigned" ∧
          p.2.ambulanceId = some (jsOrStr ambulanceId caller.id) ∧
          p.2.hospitalId = some (jsOrStr hospitalId caller.id)) := by
  constructor
  · intro h
    simp [assignEmergency, h]
  · intro h
    obtain ⟨e, he⟩ := Option.ne_none_iff_exists'.mp h
    simp only [assignEmergency, he]
    rcases hp : kvGet s.profiles (jsOrStr hospitalId caller.id) with _ | hp0
    · rcases ha : kvGet s.profiles (jsOrStr ambulanceId caller.id) with _ | ap0 <;>
        simp [hp, ha]
    · by_cases hr : hp0.role = "hospital" <;>
        rcases ha : kvGet s.profiles (jsOrStr ambulanceId caller.id) with _ | ap0 <;>
        simp [hp, ha, hr]

/-- C3 witness: both branches of the amended theorem at concrete inputs. -/
theorem c3_assign_no_pending_check_witness :
    (assignEmergency demoAssigned demoHospital "nope" (some "u2") (some "h1") none 1 =
      .error recordNotFound) ∧
    (∃ p, assignEmergency demoAssigned demoHospital demoId
        (some "u2") (some "h1") none 2500 = .ok p ∧ p.2.status = "assigned" ∧
        p.2.ambulanceId = some (jsOrStr (some "u2") demoHospital.id) ∧
        p.2.hospitalId = some (jsOrStr (some "h1") demoHospital.id)) := by
  exact ⟨(c3_assign_no_pending_check demoAssigned demoHospital "nope"
      (some "u2") (some "h1") none 1).1 rfl,
    (c3_assign_no_pending_check demoAssigned demoHospital demoId
      (some "u2") (some "h1") none 2500).2 (by decide)⟩

/-- C8 counterexample: the claim says adding an identifier that is
already on the active list leaves the list unchanged.  The creation
handler's addition is an unconditional push: adding `a` to `[a]` yields
`[a, a]`, a duplicate entry. -/
theorem c8_counterexample :
    activeAdd ["a"] "a" = ["a", "a"] ∧ activeAdd ["a"] "a" ≠ ["a"] := by
  exact ⟨rfl, by decide⟩

/-- C8 amended: removal is idempotent — removing an absent identifier
leaves the list unchanged, repeating a removal is a no-op, and a removed
identifier is gone — and neither direction errors; but addition is a
plain append, so adding an already-present identifier produces a
duplicate entry (the count grows by one) instead of leaving the list
unchanged. -/
theorem c8_remove_idempotent_add_duplicates :
    (∀ (l : List String) (id : String), id ∉ l → activeRemove l id = l) ∧
    (∀ (l : List String) (id : String),
      activeRemove (activeRemove l id) id = activeRemove l id) ∧
    (∀ (l : List String) (id : String), id ∉ activeRemove l id) ∧
    (∀ (l : List String) (id : String),
      (activeAdd l id).count id = l.count id + 1) := by
  refine ⟨?_, ?_, ?_, ?_⟩
  · intro l id h
    unfold activeRemove
    refine List.filter_eq_self.mpr ?_
    intro a ha
    simp only [decide_eq_true_eq]
    intro hai
    exact h (hai ▸ ha)
  · intro l id
    refine List.filter_eq_self.mpr ?_
    intro a ha
    simp only [decide_eq_true_eq]
    exact (mem_activeRemove.mp ha).2
  · intro l id h
    exact (mem_activeRemove.mp h).2 rfl
  · intro l id
    simp [activeAdd]

/-- C8 witness: the removal branches of the amended theorem at concrete
inputs (the hypothesis `id ∉ l` discharged by evaluation). -/
theorem c8_remove_idempotent_add_duplicates_witness :
    activeRemove ["a", "b"] "c" = ["a", "b"] ∧
    activeRemove (activeRemove ["a", "b", "a"] "a") "a" =
      activeRemove ["a", "b", "a"] "a" ∧
    "a" ∉ activeRemove ["a", "b", "a"] "a" ∧
    (activeAdd ["a", "b"] "a").count "a" = (["a", "b"] : List String).count "a" + 1 := by
  exact ⟨c8_remove_idempotent_add_duplicates.1 ["a", "b"] "c" (by decide),
    c8_remove_idempotent_add_duplicates.2.1 ["a", "b", "a"] "a",
    c8_remove_idempotent_add_duplicates.2.2.1 ["a", "b", "a"] "a",
    c8_remove_idempotent_add_duplicates.2.2.2 ["a", "b"] "a"⟩

/-- C10: in a gate status whose gate-entry timestamp field is absent, the
timeout-advance handler reports `TimeoutNotReached` whatever the current
time is (the timestamp guard fails, so no branch fires and no mutation is
written). -/
theorem c10_timeout_missing_stamp (s : ServerState) (caller : UserAuth)
    (emergencyId : String) (now : Nat) (e : Emergency)
    (hrole : caller.role = "ambulance" ∨ caller.role = "hospital")
    (he : kvGet s.emergencies emergencyId = some e) :
    (e.status = "arrived_at_scene" → e.arrivedAtSceneAt = none →
      timeoutAdvance s caller emergencyId now = .error timeoutNotReached) ∧
    (e.status = "arrived_at_hospital" → e.arrivedAtHospitalAt = none →
      timeoutAdvance s caller emergencyId now = .error timeoutNotReached) := by
  have hr : ¬ (caller.role ≠ "ambulance" ∧ caller.role ≠ "hospital") := by
    rcases hrole with h | h <;> simp [h]
  constructor
  · intro hst hts
    simp [timeoutAdvance, he, hr, hst, hts]
  · intro hst hts
    simp [timeoutAdvance, he, hr, hst, hts]

/-- C10 witness: both gates at a concrete stampless state, with an
arbitrarily large current time. -/
theorem c10_timeout_missing_stamp_witness :
    timeoutAdvance stamplessState demoAmbulance "emergency:42:p9" 1000000000000 =
      .error timeoutNotReached ∧
    timeoutAdvance stamplessState demoAmbulance "emergency:43:p9" 1000000000000 =
      .error timeoutNotReached := by
  exact ⟨(c10_timeout_missing_stamp stamplessState demoAmbulance "emergency:42:p9"
      1000000000000 stamplessSceneRec (Or.inl rfl) rfl).1 rfl rfl,
    (c10_timeout_missing_stamp stamplessState demoAmbulance "emergency:43:p9"
      1000000000000 stamplessHospitalRec (Or.inl rfl) rfl).2 rfl rfl⟩

/-- C4: timeout auto-advance.  For a record found at a gate with its
gate-entry timestamp, a unit- or facility-role caller gets
`TimeoutNotReached` while fewer than 30 minutes have elapsed; once the
threshold is reached the handler marks the corresponding patient
confirmation `false`, sets `autoAdvanced` with its reason string, clears
the awaiting flag, and advances to the gate's successor
(`patient_loaded`, resp. `completed`). -/
theorem c4_timeout_spec (s : ServerState) (caller : UserAuth) (emergencyId : String)
    (now : Nat) {t : Nat} {e : Emergency}
    (hrole : caller.role = "ambulance" ∨ caller.role = "hospital")
    (he : kvGet s.emergencies emergencyId = some e) :
    (e.status = "arrived_at_scene" → e.arrivedAtSceneAt = some t →
      ((now < t + TIMEOUT_MINUTES * 60 * 1000 →
        timeoutAdvance s caller emergencyId now = .error timeoutNotReached) ∧
       (t + TIMEOUT_MINUTES * 60 * 1000 ≤ now →
        ∃ p, timeoutAdvance s caller emergencyId now = .ok p ∧
          p.2.status = "patient_loaded" ∧
          p.2.patientConfirmedArrival = some false ∧
          p.2.autoAdvanced = some true ∧
          p.2.autoAdvancedReason = some "Patient confirmation timeout after 30 minutes" ∧
          p.2.awaitingPatientConfirmation = some false))) ∧
    (e.status = "arrived_at_hospital" → e.arrivedAtHospitalAt = some t →
      ((now < t + TIMEOUT_MINUTES * 60 * 1000 →
        timeoutAdvance s caller emergencyId now = .error timeoutNotReached) ∧
       (t + TIMEOUT_MINUTES * 60 * 1000 ≤ now →
        ∃ p, timeoutAdvance s caller emergencyId now = .ok p ∧
          p.2.status = "completed" ∧
          p.2.patientConfirmedCompletion = some false ∧
          p.2.autoAdvanced = some true ∧
          p.2.autoAdvancedReason = some "Completion confirmation timeout after 30 minutes" ∧
          p.2.awaitingPatientConfirmation = some false))) := by
  have hr : ¬ (caller.role ≠ "ambulance" ∧ caller.role ≠ "hospital") := by
    rcases hrole with h | h <;> simp [h]
  constructor
  · intro hst hts
    constructor
    · intro hlt
      have hnle : ¬ (t + TIMEOUT_MINUTES * 60 * 1000 ≤ now) := Nat.not_le.mpr hlt
      simp [timeoutAdvance, he, hr, hst, hts, hnle]
    · intro hle
      simp [timeoutAdvance, he, hr, hst, hts, hle]
  · intro hst hts
    have hne : e.status ≠ "arrived_at_scene" := by rw [hst]; decide
    constructor
    · intro hlt
      have hnle : ¬ (t + TIMEOUT_MINUTES * 60 * 1000 ≤ now) := Nat.not_le.mpr hlt
      simp [timeoutAdvance, he, hr, hne, hst, hts, hnle]
    · intro hle
      simp [timeoutAdvance, he, hr, hne, hst, hts, hle]

/-- C4 witness: both gates at concrete states, one call just before the
threshold and one at it. -/
theorem c4_timeout_spec_witness :
    (timeoutAdvance demoAtScene demoAmbulance demoId 5000 =
      .error timeoutNotReached) ∧
    (∃ p, timeoutAdvance demoAtScene demoAmbulance demoId 1804000 = .ok p ∧
      p.2.status = "patient_loaded" ∧
      p.2.patientConfirmedArrival = some false ∧
      p.2.autoAdvanced = some true ∧
      p.2.autoAdvancedReason = some "Patient confirmation timeout after 30 minutes" ∧
      p.2.awaitingPatientConfirmation = some false) ∧
    (timeoutAdvance demoAtHospital demoHospital demoId 9000 =
      .error timeoutNotReached) ∧
    (∃ p, timeoutAdvance demoAtHospital demoHospital demoId 1808000 = .ok p ∧
      p.2.status = "completed" ∧
      p.2.patientConfirmedCompletion = some false ∧
      p.2.autoAdvanced = some true ∧
      p.2.autoAdvancedReason = some "Completion confirmation timeout after 30 minutes" ∧
      p.2.awaitingPatientConfirmation = some false) := by
  refine ⟨((c4_timeout_spec demoAtScene demoAmbulance demoId 5000
      (Or.inl rfl) rfl).1 rfl rfl).1 (by decide),
    ((c4_timeout_spec demoAtScene demoAmbulance demoId 1804000
      (Or.inl rfl) rfl).1 rfl rfl).2 (by decide),
    ((c4_timeout_spec demoAtHospital demoHospital demoId 9000
      (Or.inr rfl) rfl).2 rfl rfl).1 (by decide),
    ((c4_timeout_spec demoAtHospital demoHospital demoId 1808000
      (Or.inr rfl) rfl).2 rfl rfl).2 (by decide)⟩

/-- C5 counterexample: the claim says that after one gate-resolution path
has succeeded, a subsequent call of another path fails with `WrongState`.
After the requester's direct confirmation succeeded (producing
`demoLoaded`), a subsequent timeout-advance call — arbitrarily far in the
future — fails with `TimeoutNotReached`, which is a different error from
the two `WrongState` responses. -/
theorem c5_counterexample :
    resStatus (confirmArrival demoAtScene demoPatient demoId 6000) =
      some "patient_loaded" ∧
    timeoutAdvance demoLoaded demoAmbulance demoId 999999999999 =
      .error timeoutNotReached ∧
    timeoutNotReached ≠ errNotInScene ∧ timeoutNotReached ≠ errNotInHospital := by
  exact ⟨rfl, rfl, by decide, by decide⟩

/-- C5 amended: the three gate-resolution paths are mutually exclusive —
once a record has left a gate status, a later direct confirmation or
facility-proxy confirmation for either gate fails with the corresponding
`WrongState` error, while a later timeout-advance call fails with
`TimeoutNotReached` (not `WrongState`); none of them succeeds or advances
the record a second time. -/
theorem c5_gate_resolution_exclusive (s : ServerState) (emergencyId : String)
    {e : Emergency} (patient hosp unitCaller : UserAuth) (n1 n2 n3 n4 n5 : Nat)
    (he : kvGet s.emergencies emergencyId = some e)
    (h1 : e.status ≠ "arrived_at_scene") (h2 : e.status ≠ "arrived_at_hospital")
    (hp : e.patientId = patient.id)
    (hh : hosp.role = "hospital")
    (hu : unitCaller.role = "ambulance" ∨ unitCaller.role = "hospital") :
    confirmArrival s patient emergencyId n1 = .error errNotInScene ∧
    confirmCompletion s patient emergencyId n2 = .error errNotInHospital ∧
    hospitalConfirm s hosp emergencyId "arrival" n3 = .error errNotInScene ∧
    hospitalConfirm s hosp emergencyId "completion" n4 = .error errNotInHospital ∧
    timeoutAdvance s unitCaller emergencyId n5 = .error timeoutNotReached := by
  have hr : ¬ (unitCaller.role ≠ "ambulance" ∧ unitCaller.role ≠ "hospital") := by
    rcases hu with h | h <;> simp [h]
  refine ⟨?_, ?_, ?_, ?_, ?_⟩
  · simp [confirmArrival, he, hp, h1]
  · simp [confirmCompletion, he, hp, h2]
  · simp [hospitalConfirm, he, hh, h1]
  · simp [hospitalConfirm, he, hh, h2]
  · simp [timeoutAdvance, he, hr, h1, h2]

/-- C5 witness: all five subsequent calls at the state reached after the
requester's direct gate-1 confirmation. -/
theorem c5_gate_resolution_exclusive_witness :
    confirmArrival demoLoaded demoPatient demoId 7000 = .error errNotInScene ∧
    confirmCompletion demoLoaded demoPatient demoId 7000 = .error errNotInHospital ∧
    hospitalConfirm demoLoaded demoHospital demoId "arrival" 7000 =
      .error errNotInScene ∧
    hospitalConfirm demoLoaded demoHospital demoId "completion" 7000 =
      .error errNotInHospital ∧
    timeoutAdvance demoLoaded demoAmbulance demoId 999999999999 =
      .error timeoutNotReached := by
  exact c5_gate_resolution_exclusive demoLoaded demoId demoPatient demoHospital
    demoAmbulance 7000 7000 7000 7000 999999999999 rfl (by decide) (by decide)
    rfl rfl (Or.inl rfl)

/-- C6 counterexample: the claim says direct confirmation of either gate
fails with `Forbidden` for every caller other than the original
requester.  The record in `demoAtHospital` was created by requester `p1`,
yet the hospital user `h1` named on the record calls the direct
confirm-completion endpoint and it succeeds. -/
theorem c6_counterexample :
    (kvGet demoAtHospital.emergencies demoId).map Emergency.patientId = some "p1" ∧
    demoHospital.id = "h1" ∧ ("h1" : String) ≠ "p1" ∧
    resStatus (confirmCompletion demoAtHospital demoHospital demoId 9000) =
      some "completed" := by
  exact ⟨rfl, rfl, by decide, rfl⟩

/-- C6 amended: gate-1 direct confirmation is requester-only — any other
caller gets `Forbidden`, and the requester gets `WrongState` off-status.
Gate-2 direct confirmation accepts the requester or the facility named on
the record: a caller that is neither gets `Forbidden`, an authorized
caller gets `WrongState` off-status, and the named facility succeeds from
`arrived_at_hospital` even though it is not the requester. -/
theorem c6_direct_confirmation_auth (s : ServerState) (caller : UserAuth)
    (emergencyId : String) (now : Nat) {e : Emergency}
    (he : kvGet s.emergencies emergencyId = some e) :
    (e.patientId ≠ caller.id →
      confirmArrival s caller emergencyId now = .error forbiddenArrival) ∧
    (e.patientId = caller.id → e.status ≠ "arrived_at_scene" →
      confirmArrival s caller emergencyId now = .error errNotInScene) ∧
    (e.patientId ≠ caller.id → e.hospitalId ≠ some caller.id →
      confirmCompletion s caller emergencyId now = .error forbiddenCompletion) ∧
    ((e.patientId = caller.id ∨ e.hospitalId = some caller.id) →
      e.status ≠ "arrived_at_hospital" →
      confirmCompletion s caller emergencyId now = .error errNotInHospital) ∧
    (e.hospitalId = some caller.id → e.patientId ≠ caller.id →
      e.status = "arrived_at_hospital" →
      ∃ p, confirmCompletion s caller emergencyId now = .ok p ∧
        p.2.status = "completed") := by
  refine ⟨?_, ?_, ?_, ?_, ?_⟩
  · intro h
    simp [confirmArrival, he, h]
  · intro h hst
    simp [confirmArrival, he, h, hst]
  · intro h1 h2
    simp [confirmCompletion, he, h1, h2]
  · intro h hst
    rcases h with h | h
    · simp [confirmCompletion, he, h, hst]
    · simp [confirmCompletion, he, h, hst]
  · intro hh hp hst
    simp [confirmCompletion, he, hh, hp, hst]

/-- C6 witness: the gate-1 `Forbidden` rejection for the hospital, the
gate-1 `WrongState` rejection for the requester off-status, the gate-2
`Forbidden` rejection for the ambulance, the gate-2 `WrongState`
rejection for the requester off-status, and the gate-2 success of the
named facility, all at concrete states. -/
theorem c6_direct_confirmation_auth_witness :
    confirmArrival demoAtScene demoHospital demoId 5000 = .error forbiddenArrival ∧
    confirmArrival demoAtHospital demoPatient demoId 9000 = .error errNotInScene ∧
    confirmCompletion demoAtHospital demoAmbulance demoId 9000 =
      .error forbiddenCompletion ∧
    confirmCompletion demoAtScene demoPatient demoId 5000 =
      .error errNotInHospital ∧
    (∃ p, confirmCompletion demoAtHospital demoHospital demoId 9000 = .ok p ∧
      p.2.status = "completed") := by
  refine ⟨(c6_direct_confirmation_auth demoAtScene demoHospital demoId 5000 rfl).1
      (by decide),
    (c6_direct_confirmation_auth demoAtHospital demoPatient demoId 9000 rfl).2.1
      rfl (by decide),
    (c6_direct_confirmation_auth demoAtHospital demoAmbulance demoId 9000 rfl).2.2.1
      (by decide) (by decide),
    (c6_direct_confirmation_auth demoAtScene demoPatient demoId 5000 rfl).2.2.2.1
      (Or.inl rfl) (by decide),
    (c6_direct_confirmation_auth demoAtHospital demoHospital demoId 9000 rfl).2.2.2.2
      rfl (by decide) rfl⟩

/-! Shape lemmas: each handler's successful result, characterized in
terms of its inputs.  They are read off the handler definitions once and
shared by the invariant-preservation theorems. -/

theorem kvSet_forall {α : Type} {P : String × α → Prop} {l : List (String × α)}
    {k : String} {v : α} (hl : ∀ pr ∈ l, P pr) (hv : P (k, v)) :
    ∀ pr ∈ kvSet l k v, P pr := by
  intro pr hpr
  rcases mem_kvSet hpr with h | h
  · rw [h]; exact hv
  · exact hl pr h

theorem confirmArrival_shape {s : ServerState} {caller : UserAuth}
    {emergencyId : String} {now : Nat} {p : ServerState × Emergency}
    (hok : confirmArrival s caller emergencyId now = .ok p) :
    ∃ e, kvGet s.emergencies emergencyId = some e ∧
      e.status = "arrived_at_scene" ∧ e.patientId = caller.id ∧
      p.2 = { e with
        patientConfirmedArrival := some true
        patientConfirmedArrivalAt := some now
        awaitingPatientConfirmation := some false
        status := "patient_loaded"
        patientLoadedAt := some now
        updatedAt := now } ∧
      p.1 = { s with emergencies := kvSet s.emergencies emergencyId p.2 } := by
  rcases he : kvGet s.emergencies emergencyId with _ | e
  · simp [confirmArrival, he] at hok
  · by_cases hpid : e.patientId ≠ caller.id
    · simp [confirmArrival, he, hpid] at hok
    · by_cases hst : e.status ≠ "arrived_at_scene"
      · simp [confirmArrival, he, hpid, hst] at hok
      · simp only [confirmArrival, he, hpid, hst, if_false, ite_false] at hok
        injection hok with h
        subst h
        exact ⟨e, rfl, not_not.mp hst, not_not.mp hpid, rfl, rfl⟩

theorem kvSet_forall_nodup {α : Type} {P : String × α → Prop} {l : List (String × α)}
    {k : String} {v : α} (hnd : kvNodup l)
    (hl : ∀ pr ∈ l, pr.1 ≠ k → P pr) (hv : P (k, v)) :
    ∀ pr ∈ kvSet l k v, P pr := by
  intro pr hpr
  rcases mem_kvSet_nodup hnd hpr with h | ⟨hm, hne⟩
  · rw [h]; exact hv
  · exact hl pr hm hne

theorem mem_of_kvGet {α : Type} {l : List (String × α)} {k : String} {v : α}
    (h : kvGet l k = some v) : (k, v) ∈ l := by
  induction l with
  | nil => simp [kvGet] at h
  | cons hd tl ih =>
      obtain ⟨a, b⟩ := hd
      by_cases hak : a = k
      · subst hak
        simp [kvGet] at h
        simp [h]
      · simp only [kvGet, hak, if_false] at h
        exact List.mem_cons_of_mem _ (ih h)

/-- A variant of `releaseAmbulance_profile` taking the option argument by
an equation, convenient after substitutions. -/
theorem releaseAmbulance_profile_opt {s : ServerState} {o : Option String}
    {aid : String} {ap : Profile} (ho : o = some aid) (hne : aid ≠ "")
    (hp : kvGet s.profiles aid = some ap) :
    kvGet (releaseAmbulance s o).profiles aid =
      some { ap with status := "available", currentEmergency := none } := by
  subst ho
  exact releaseAmbulance_profile hne hp

theorem create_shape (s : ServerState) (caller : UserAuth) (now : Nat)
    (pn pp : Option String) (d : String) :
    (createEmergency s caller now pn pp d).2.status = "pending" ∧
    (createEmergency s caller now pn pp d).2.awaitingPatientConfirmation = none ∧
    (createEmergency s caller now pn pp d).1.emergencies =
      kvSet s.emergencies ("emergency:" ++ toString now ++ ":" ++ caller.id)
        (createEmergency s caller now pn pp d).2 ∧
    (createEmergency s caller now pn pp d).1.active =
      activeAdd s.active ("emergency:" ++ toString now ++ ":" ++ caller.id) := by
  exact ⟨rfl, rfl, rfl, rfl⟩

theorem confirmCompletion_shape {s : ServerState} {caller : UserAuth}
    {emergencyId : String} {now : Nat} {p : ServerState × Emergency}
    (hok : confirmCompletion s caller emergencyId now = .ok p) :
    ∃ e, kvGet s.emergencies emergencyId = some e ∧
      e.status = "arrived_at_hospital" ∧
      (e.patientId = caller.id ∨ e.hospitalId = some caller.id) ∧
      p.2 = { e with
        patientConfirmedCompletion := some true
        patientConfirmedCompletionAt := some now
        awaitingPatientConfirmation := some false
        status := "completed"
        completedAt := some now
        updatedAt := now } ∧
      p.1.emergencies = kvSet s.emergencies emergencyId p.2 ∧
      p.1.active = activeRemove s.active emergencyId ∧
      (∀ aid ap, e.ambulanceId = some aid → aid ≠ "" →
        kvGet s.profiles aid = some ap →
        kvGet p.1.profiles aid =
          some { ap with status := "available", currentEmergency := none }) := by
  rcases he : kvGet s.emergencies emergencyId with _ | e
  · simp [confirmCompletion, he] at hok
  · by_cases hauth : e.patientId ≠ caller.id ∧ e.hospitalId ≠ some caller.id
    · simp [confirmCompletion, he, hauth] at hok
    · by_cases hst : e.status ≠ "arrived_at_hospital"
      · simp [confirmCompletion, he, hauth, hst] at hok
      · simp only [confirmCompletion, he, hauth, hst, if_false, ite_false] at hok
        injection hok with h
        subst h
        refine ⟨e, rfl, not_not.mp hst, ?_, rfl, ?_, ?_, ?_⟩
        · rcases not_and_or.mp hauth with h | h
          · exact Or.inl (not_not.mp h)
          · exact Or.inr (not_not.mp h)
        · rw [releaseAmbulance_emergencies]
        · rw [releaseAmbulance_active]
        · intro aid ap hga hne hap
          exact releaseAmbulance_profile_opt hga hne hap

theorem hospitalConfirm_shape {s : ServerState} {caller : UserAuth}
    {emergencyId confirmationType : String} {now : Nat} {p : ServerState × Emergency}
    (hok : hospitalConfirm s caller emergencyId confirmationType now = .ok p) :
    ∃ e, kvGet s.emergencies emergencyId = some e ∧ caller.role = "hospital" ∧
      ((confirmationType = "arrival" ∧ e.status = "arrived_at_scene" ∧
        p.2 = { e with
          hospitalConfirmedArrival := some true
          hospitalConfirmedArrivalAt := some now
          awaitingPatientConfirmation := some false
          status := "patient_loaded"
          patientLoadedAt := some now
          updatedAt := now } ∧
        p.1 = { s with emergencies := kvSet s.emergencies emergencyId p.2 }) ∨
       (confirmationType = "completion" ∧ e.status = "arrived_at_hospital" ∧
        p.2 = { e with
          hospitalConfirmedCompletion := some true
          hospitalConfirmedCompletionAt := some now
          awaitingPatientConfirmation := some false
          status := "completed"
          completedAt := some now
          updatedAt := now } ∧
        p.1.emergencies = kvSet s.emergencies emergencyId p.2 ∧
        p.1.active = activeRemove s.active emergencyId ∧
        (∀ aid ap, e.ambulanceId = some aid → aid ≠ "" →
          kvGet s.profiles aid = some ap →
          kvGet p.1.profiles aid =
            some { ap with status := "available", currentEmergency := none }))) := by
  rcases he : kvGet s.emergencies emergencyId with _ | e
  · simp [hospitalConfirm, he] at hok
  · by_cases hrole : caller.role ≠ "hospital"
    · simp [hospitalConfirm, he, hrole] at hok
    · by_cases hct : confirmationType = "arrival"
      · by_cases hst : e.status ≠ "arrived_at_scene"
        · simp [hospitalConfirm, he, hrole, hct, hst] at hok
        · simp only [hospitalConfirm, he, hrole, hct, hst, if_false, ite_false,
            if_true, ite_true] at hok
          injection hok with h
          subst h
          exact ⟨e, rfl, not_not.mp hrole,
            Or.inl ⟨hct, not_not.mp hst, rfl, rfl⟩⟩
      · by_cases hct2 : confirmationType = "completion"
        · by_cases hst : e.status ≠ "arrived_at_hospital"
          · simp [hospitalConfirm, he, hrole, hct, hct2, hst] at hok
          · simp only [hospitalConfirm, he, hrole, hct, hct2, hst, if_false,
              ite_false, if_true, ite_true] at hok
            injection hok with h
            subst h
            refine ⟨e, rfl, not_not.mp hrole,
              Or.inr ⟨hct2, not_not.mp hst, rfl, ?_, ?_, ?_⟩⟩
            · rw [releaseAmbulance_emergencies]
            · rw [releaseAmbulance_active]
            · intro aid ap hga hne hap
              exact releaseAmbulance_profile_opt hga hne hap
        · simp [hospitalConfirm, he, hrole, hct, hct2] at hok

theorem timeoutAdvance_shape {s : ServerState} {caller : UserAuth}
    {emergencyId : String} {now : Nat} {p : ServerState × Emergency}
    (hok : timeoutAdvance s caller emergencyId now = .ok p) :
    ∃ e, kvGet s.emergencies emergencyId = some e ∧
      ((e.status = "arrived_at_scene" ∧
        p.2 = { e with
          patientConfirmedArrival := some false
          autoAdvanced := some true
          autoAdvancedReason := some "Patient confirmation timeout after 30 minutes"
          awaitingPatientConfirmation := some false
          status := "patient_loaded"
          patientLoadedAt := some now
          updatedAt := now } ∧
        p.1 = { s with emergencies := kvSet s.emergencies emergencyId p.2 }) ∨
       (e.status = "arrived_at_hospital" ∧
        p.2 = { e with
          patientConfirmedCompletion := some false
          autoAdvanced := some true
          autoAdvancedReason := some "Completion confirmation timeout after 30 minutes"
          awaitingPatientConfirmation := some false
          status := "completed"
          completedAt := some now
          updatedAt := now } ∧
        p.1.emergencies = kvSet s.emergencies emergencyId p.2 ∧
        p.1.active = activeRemove s.active emergencyId ∧
        (∀ aid ap, e.ambulanceId = some aid → aid ≠ "" →
          kvGet s.profiles aid = some ap →
          kvGet p.1.profiles aid =
            some { ap with status := "available", currentEmergency := none }))) := by
  rcases he : kvGet s.emergencies emergencyId with _ | e
  · simp [timeoutAdvance, he] at hok
  · by_cases hrole : caller.role ≠ "ambulance" ∧ caller.role ≠ "hospital"
    · simp [timeoutAdvance, he, hrole] at hok
    · by_cases hs1 : e.status = "arrived_at_scene"
      · rcases hts : e.arrivedAtSceneAt with _ | t
        · simp [timeoutAdvance, he, hrole, hs1, hts] at hok
        · by_cases hth : t + TIMEOUT_MINUTES * 60 * 1000 ≤ now
          · simp only [timeoutAdvance, he, hrole, hs1, hts, hth, if_false,
              ite_false, if_true, ite_true] at hok
            injection hok with h
            subst h
            exact ⟨e, rfl, Or.inl ⟨hs1, by rw [hts], rfl⟩⟩
          · simp [timeoutAdvance, he, hrole, hs1, hts, hth] at hok
      · by_cases hs2 : e.status = "arrived_at_hospital"
        · rcases hts : e.arrivedAtHospitalAt with _ | t
          · simp [timeoutAdvance, he, hrole, hs1, hs2, hts] at hok
          · by_cases hth : t + TIMEOUT_MINUTES * 60 * 1000 ≤ now
            · simp only [timeoutAdvance, he, hrole, hs1, hs2, hts, hth, if_false,
                ite_false, if_true, ite_true] at hok
              injection hok with h
              subst h
              refine ⟨e, rfl, Or.inr ⟨hs2, by rw [hts], ?_, ?_, ?_⟩⟩
              · rw [releaseAmbulance_emergencies]
              · rw [releaseAmbulance_active]
              · intro aid ap hga hne hap
                exact releaseAmbulance_profile_opt hga hne hap
            · simp [timeoutAdvance, he, hrole, hs1, hs2, hts, hth] at hok
        · simp [timeoutAdvance, he, hrole, hs1, hs2] at hok

theorem assign_shape {s : ServerState} {caller : UserAuth} {emergencyId : String}
    {aid hid eta : Option String} {now : Nat} {e : Emergency}
    {p : ServerState × Emergency}
    (he : kvGet s.emergencies emergencyId = some e)
    (hok : assignEmergency s caller emergencyId aid hid eta now = .ok p) :
    p.2.status = "assigned" ∧
    p.2.awaitingPatientConfirmation = e.awaitingPatientConfirmation ∧
    p.2.patientConfirmedArrival = e.patientConfirmedArrival ∧
    p.2.hospitalConfirmedArrival = e.hospitalConfirmedArrival ∧
    p.2.patientConfirmedCompletion = e.patientConfirmedCompletion ∧
    p.2.hospitalConfirmedCompletion = e.hospitalConfirmedCompletion ∧
    p.1.emergencies = kvSet s.emergencies emergencyId p.2 ∧
    p.1.active = s.active ∧
    (∀ ap, kvGet s.profiles (jsOrStr aid caller.id) = some ap →
      kvGet p.1.profiles (jsOrStr aid caller.id) =
        some { ap with status := "busy", currentEmergency := some emergencyId }) := by
  simp only [assignEmergency, he] at hok
  rcases hhp : kvGet s.profiles (jsOrStr hid caller.id) with _ | hp0 <;>
    simp only [hhp] at hok
  · rcases hha : kvGet s.profiles (jsOrStr aid caller.id) with _ | ap0 <;>
      simp only [hha] at hok <;> injection hok with h <;> subst h
    · refine ⟨rfl, rfl, rfl, rfl, rfl, rfl, rfl, rfl, ?_⟩
      intro ap hap
      exact Option.noConfusion hap
    · refine ⟨rfl, rfl, rfl, rfl, rfl, rfl, rfl, rfl, ?_⟩
      intro ap hap
      injection hap with h2
      subst h2
      simp [kvGet_kvSet_self]
  · by_cases hr : hp0.role = "hospital" <;>
      rcases hha : kvGet s.profiles (jsOrStr aid caller.id) with _ | ap0 <;>
      simp only [hr, hha, if_true, if_false, ite_true, ite_false] at hok <;>
      injection hok with h <;> subst h <;>
      refine ⟨rfl, rfl, rfl, rfl, rfl, rfl, rfl, rfl, ?_⟩ <;> intro ap hap
    · exact Option.noConfusion hap
    · injection hap with h2
      subst h2
      simp [kvGet_kvSet_self]
    · exact Option.noConfusion hap
    · injection hap with h2
      subst h2
      simp [kvGet_kvSet_self]

theorem update_shape {s : ServerState} {emergencyId target : String}
    {notes : Option String} {now : Nat} {e : Emergency} {p : ServerState × Emergency}
    (he : kvGet s.emergencies emergencyId = some e)
    (hok : updateEmergencyStatus s emergencyId target notes now = .ok p) :
    p.2.status = target ∧
    p.2.ambulanceId = e.ambulanceId ∧
    p.2.patientConfirmedArrival = e.patientConfirmedArrival ∧
    p.2.hospitalConfirmedArrival = e.hospitalConfirmedArrival ∧
    p.2.patientConfirmedCompletion = e.patientConfirmedCompletion ∧
    p.2.hospitalConfirmedCompletion = e.hospitalConfirmedCompletion ∧
    p.2.awaitingPatientConfirmation =
      (if target = "arrived_at_scene" ∨ target = "arrived_at_hospital" then some true
       else e.awaitingPatientConfirmation) ∧
    p.1.emergencies = kvSet s.emergencies emergencyId p.2 ∧
    p.1.active =
      (if target = "completed" ∨ target = "cancelled"
       then activeRemove s.active emergencyId else s.active) ∧
    ((target = "completed" ∨ target = "cancelled") →
      ∀ aid ap, e.ambulanceId = some aid → aid ≠ "" →
        kvGet s.profiles aid = some ap →
        kvGet p.1.profiles aid =
          some { ap with status := "available", currentEmergency := none }) := by
  simp only [updateEmergencyStatus, he] at hok
  by_cases h1 : target = "arrived_at_scene"
  · have h2 : ¬ target = "arrived_at_hospital" := by rw [h1]; decide
    have ht : ¬ (target = "completed" ∨ target = "cancelled") := by rw [h1]; decide
    rw [if_pos h1, if_neg h2, if_neg ht] at hok
    injection hok with h
    subst h
    refine ⟨rfl, rfl, rfl, rfl, rfl, rfl, ?_, rfl, ?_, ?_⟩
    · rw [if_pos (Or.inl h1)]
    · rw [if_neg ht]
    · intro htt
      exact absurd htt ht
  · by_cases h2 : target = "arrived_at_hospital"
    · have ht : ¬ (target = "completed" ∨ target = "cancelled") := by rw [h2]; decide
      rw [if_neg h1, if_pos h2, if_neg ht] at hok
      injection hok with h
      subst h
      refine ⟨rfl, rfl, rfl, rfl, rfl, rfl, ?_, rfl, ?_, ?_⟩
      · rw [if_pos (Or.inr h2)]
      · rw [if_neg ht]
      · intro htt
        exact absurd htt ht
    · have h12 : ¬ (target = "arrived_at_scene" ∨ target = "arrived_at_hospital") := by
        rintro (h | h)
        · exact h1 h
        · exact h2 h
      by_cases ht : target = "completed" ∨ target = "cancelled"
      · rw [if_neg h1, if_neg h2, if_pos ht] at hok
        injection hok with h
        subst h
        refine ⟨rfl, rfl, rfl, rfl, rfl, rfl, ?_, ?_, ?_, ?_⟩
        · rw [if_neg h12]
        · rw [releaseAmbulance_emergencies]
        · rw [releaseAmbulance_active, if_pos ht]
        · intro _ aid ap hga hne hap
          exact releaseAmbulance_profile_opt hga hne hap
      · rw [if_neg h1, if_neg h2, if_neg ht] at hok
        injection hok with h
        subst h
        refine ⟨rfl, rfl, rfl, rfl, rfl, rfl, ?_, rfl, ?_, ?_⟩
        · rw [if_neg h12]
        · rw [if_neg ht]
        · intro htt
          exact absurd htt ht

/-- C2 counterexample: the claim says the awaiting-confirmation
invariant holds after every operation.  Applying an advance-status call
with target `cancelled` to the gate state `demoAtScene` (itself reached
by core operations) yields a record with status `cancelled` whose
`awaitingPatientConfirmation` flag is still `true`: the handler does not
clear the flag when a record leaves a gate by a plain status update. -/
theorem c2_counterexample :
    resStatus (updateEmergencyStatus demoAtScene demoId "cancelled" none 5000) =
      some "cancelled" ∧
    (resRecord (updateEmergencyStatus demoAtScene demoId "cancelled" none 5000)).map
      Emergency.awaitingPatientConfirmation = some (some true) := by
  exact ⟨rfl, rfl⟩

/-- C2 amended: the awaiting-confirmation invariant is established by
creation and preserved unconditionally by the four gate-resolution
handlers; it is preserved by assign only when the record is not currently
awaiting confirmation, and by advance-status only when entering a gate
whose confirmation flag is not already set, or moving between non-gate
statuses while the record is not awaiting confirmation.  An advance-status
call that leaves a gate (such as cancelling from it) violates the
invariant, as the counterexample shows. -/
theorem c2_awaiting_invariant (s : ServerState) (hs : stateAwaitingInv s) :
    (∀ caller now pn pp d,
      stateAwaitingInv (createEmergency s caller now pn pp d).1) ∧
    (∀ caller emergencyId aid hid eta now e p,
      kvGet s.emergencies emergencyId = some e →
      e.awaitingPatientConfirmation ≠ some true →
      assignEmergency s caller emergencyId aid hid eta now = .ok p →
      stateAwaitingInv p.1) ∧
    (∀ emergencyId target notes now e p,
      kvGet s.emergencies emergencyId = some e →
      (target = "arrived_at_scene" → ¬ arrivalConfirmedProp e) →
      (target = "arrived_at_hospital" → ¬ completionConfirmedProp e) →
      (target ≠ "arrived_at_scene" → target ≠ "arrived_at_hospital" →
        e.awaitingPatientConfirmation ≠ some true) →
      updateEmergencyStatus s emergencyId target notes now = .ok p →
      stateAwaitingInv p.1) ∧
    (∀ caller emergencyId now p,
      confirmArrival s caller emergencyId now = .ok p → stateAwaitingInv p.1) ∧
    (∀ caller emergencyId now p,
      confirmCompletion s caller emergencyId now = .ok p → stateAwaitingInv p.1) ∧
    (∀ caller emergencyId now p,
      timeoutAdvance s caller emergencyId now = .ok p → stateAwaitingInv p.1) ∧
    (∀ caller emergencyId ct now p,
      hospitalConfirm s caller emergencyId ct now = .ok p → stateAwaitingInv p.1) := by
  refine ⟨?_, ?_, ?_, ?_, ?_, ?_, ?_⟩
  · intro caller now pn pp d
    obtain ⟨hst, haw, hem, hac⟩ := create_shape s caller now pn pp d
    unfold stateAwaitingInv
    rw [hem]
    refine kvSet_forall hs ?_
    show awaitingInv (createEmergency s caller now pn pp d).2
    unfold awaitingInv
    rw [hst, haw]
    simp
  · intro caller emergencyId aid hid eta now e p he hna hok
    obtain ⟨st, aw, f1, f2, f3, f4, hem, hac, hprof⟩ := assign_shape he hok
    unfold stateAwaitingInv
    rw [hem]
    refine kvSet_forall hs ?_
    show awaitingInv p.2
    unfold awaitingInv
    rw [st, aw]
    simp [hna]
  · intro emergencyId target notes now e p he hscond hhcond hocond hok
    obtain ⟨st, amb, f1, f2, f3, f4, aw, hem, hac, hrel⟩ := update_shape he hok
    unfold stateAwaitingInv
    rw [hem]
    refine kvSet_forall hs ?_
    show awaitingInv p.2
    unfold awaitingInv arrivalConfirmedProp completionConfirmedProp
    rw [st, aw, f1, f2, f3, f4]
    by_cases h1 : target = "arrived_at_scene"
    · have hflag : ¬ (e.patientConfirmedArrival = some true ∨
          e.hospitalConfirmedArrival = some true) := hscond h1
      simp [h1, hflag]
    · by_cases h2 : target = "arrived_at_hospital"
      · have hflag : ¬ (e.patientConfirmedCompletion = some true ∨
            e.hospitalConfirmedCompletion = some true) := hhcond h2
        simp [h1, h2, hflag]
      · simp [h1, h2, hocond h1 h2]
  · intro caller emergencyId now p hok
    obtain ⟨e, he, hst, hpid, hrec, hstate⟩ := confirmArrival_shape hok
    unfold stateAwaitingInv
    rw [hstate]
    refine kvSet_forall hs ?_
    show awaitingInv p.2
    rw [hrec]
    unfold awaitingInv
    simp
  · intro caller emergencyId now p hok
    obtain ⟨e, he, hst, hauth, hrec, hem, hac, hrel⟩ := confirmCompletion_shape hok
    unfold stateAwaitingInv
    rw [hem]
    refine kvSet_forall hs ?_
    show awaitingInv p.2
    rw [hrec]
    unfold awaitingInv
    simp
  · intro caller emergencyId now p hok
    obtain ⟨e, he, hcase⟩ := timeoutAdvance_shape hok
    rcases hcase with ⟨hst, hrec, hstate⟩ | ⟨hst, hrec, hem, hac, hrel⟩
    · unfold stateAwaitingInv
      rw [hstate]
      refine kvSet_forall hs ?_
      show awaitingInv p.2
      rw [hrec]
      unfold awaitingInv
      simp
    · unfold stateAwaitingInv
      rw [hem]
      refine kvSet_forall hs ?_
      show awaitingInv p.2
      rw [hrec]
      unfold awaitingInv
      simp
  · intro caller emergencyId ct now p hok
    obtain ⟨e, he, hrole, hcase⟩ := hospitalConfirm_shape hok
    rcases hcase with ⟨hct, hst, hrec, hstate⟩ | ⟨hct, hst, hrec, hem, hac, hrel⟩
    · unfold stateAwaitingInv
      rw [hstate]
      refine kvSet_forall hs ?_
      show awaitingInv p.2
      rw [hrec]
      unfold awaitingInv
      simp
    · unfold stateAwaitingInv
      rw [hem]
      refine kvSet_forall hs ?_
      show awaitingInv p.2
      rw [hrec]
      unfold awaitingInv
      simp

/-- C2 witness: the amended theorem applied at concrete states — the
invariant holds after creation, after a gate entry by advance-status,
after the requester's direct confirmation, and after a timeout advance. -/
theorem c2_awaiting_invariant_witness :
    stateAwaitingInv (createEmergency demoState0 demoPatient 1000 none none "help").1 ∧
    stateAwaitingInv
      (resState (updateEmergencyStatus demoAtScene demoId "arrived_at_hospital" none 5500)
        demoState0) ∧
    stateAwaitingInv (resState (confirmArrival demoAtScene demoPatient demoId 6000)
      demoState0) ∧
    stateAwaitingInv (resState (timeoutAdvance demoAtScene demoAmbulance demoId 1804000)
      demoState0) := by
  refine ⟨(c2_awaiting_invariant demoState0 (by decide)).1 demoPatient 1000 none none
      "help",
    (c2_awaiting_invariant demoAtScene (by decide)).2.2.1 demoId "arrived_at_hospital"
      none 5500 _ _ rfl (by decide) (by decide) (by decide) rfl,
    (c2_awaiting_invariant demoAtScene (by decide)).2.2.2.1 demoPatient demoId 6000
      _ rfl,
    (c2_awaiting_invariant demoAtScene (by decide)).2.2.2.2.2.1 demoAmbulance demoId
      1804000 _ rfl⟩

/-- C7: active-index consistency.  If every stored record's key is on the
active list exactly when its status is non-terminal, then the same holds
after any core operation: creation pushes the new id (status `pending`),
the gate-resolution handlers keep or remove the id according to the
successor status, and assign or advance-status preserve it whenever they
are applied to a record that is still non-terminal — which along a
lifecycle walk they always are, since terminal states end the walk.
`listActive` reads exactly this list, filtering the same terminality
predicate. -/
theorem c7_active_index_invariant (s : ServerState) (hnd : kvNodup s.emergencies)
    (hinv : activeInv s) :
    (∀ caller now pn pp d, activeInv (createEmergency s caller now pn pp d).1) ∧
    (∀ caller emergencyId aid hid eta now e p,
      kvGet s.emergencies emergencyId = some e → nonTerminal e.status →
      assignEmergency s caller emergencyId aid hid eta now = .ok p →
      activeInv p.1) ∧
    (∀ emergencyId target notes now e p,
      kvGet s.emergencies emergencyId = some e → nonTerminal e.status →
      updateEmergencyStatus s emergencyId target notes now = .ok p →
      activeInv p.1) ∧
    (∀ caller emergencyId now p,
      confirmArrival s caller emergencyId now = .ok p → activeInv p.1) ∧
    (∀ caller emergencyId now p,
      confirmCompletion s caller emergencyId now = .ok p → activeInv p.1) ∧
    (∀ caller emergencyId now p,
      timeoutAdvance s caller emergencyId now = .ok p → activeInv p.1) ∧
    (∀ caller emergencyId ct now p,
      hospitalConfirm s caller emergencyId ct now = .ok p → activeInv p.1) := by
  refine ⟨?_, ?_, ?_, ?_, ?_, ?_, ?_⟩
  · intro caller now pn pp d
    obtain ⟨hst, haw, hem, hac⟩ := create_shape s caller now pn pp d
    unfold activeInv
    rw [hem, hac]
    refine kvSet_forall_nodup hnd ?_ ?_
    · intro pr hm hne
      simp only [mem_activeAdd, hne, or_false]
      exact hinv pr hm
    · rw [hst]
      simp [mem_activeAdd, nonTerminal]
  · intro caller emergencyId aid hid eta now e p he hnt hok
    obtain ⟨st, aw, f1, f2, f3, f4, hem, hac, hprof⟩ := assign_shape he hok
    unfold activeInv
    rw [hem, hac]
    refine kvSet_forall_nodup hnd ?_ ?_
    · intro pr hm hne
      exact hinv pr hm
    · exact iff_of_true ((hinv _ (mem_of_kvGet he)).mpr hnt) (by rw [st]; decide)
  · intro emergencyId target notes now e p he hnt hok
    obtain ⟨st, amb, f1, f2, f3, f4, aw, hem, hac, hrel⟩ := update_shape he hok
    unfold activeInv
    rw [hem, hac]
    by_cases ht : target = "completed" ∨ target = "cancelled"
    · rw [if_pos ht]
      refine kvSet_forall_nodup hnd ?_ ?_
      · intro pr hm hne
        exact (mem_activeRemove.trans (and_iff_left hne)).trans (hinv pr hm)
      · refine iff_of_false (fun hmem => (mem_activeRemove.mp hmem).2 rfl) ?_
        rw [st]
        rcases ht with h | h <;> rw [h] <;> decide
    · rw [if_neg ht]
      refine kvSet_forall_nodup hnd ?_ ?_
      · intro pr hm hne
        exact hinv pr hm
      · refine iff_of_true ((hinv _ (mem_of_kvGet he)).mpr hnt) ?_
        rw [st]
        exact ⟨fun h => ht (Or.inl h), fun h => ht (Or.inr h)⟩
  · intro caller emergencyId now p hok
    obtain ⟨e, he, hst, hpid, hrec, hstate⟩ := confirmArrival_shape hok
    unfold activeInv
    rw [hstate]
    refine kvSet_forall_nodup hnd ?_ ?_
    · intro pr hm hne
      exact hinv pr hm
    · refine iff_of_true ((hinv _ (mem_of_kvGet he)).mpr (by rw [hst]; decide)) ?_
      rw [hrec]
      exact (by decide : nonTerminal "patient_loaded")
  · intro caller emergencyId now p hok
    obtain ⟨e, he, hst, hauth, hrec, hem, hac, hrel⟩ := confirmCompletion_shape hok
    unfold activeInv
    rw [hem, hac]
    refine kvSet_forall_nodup hnd ?_ ?_
    · intro pr hm hne
      exact (mem_activeRemove.trans (and_iff_left hne)).trans (hinv pr hm)
    · refine iff_of_false (fun hmem => (mem_activeRemove.mp hmem).2 rfl) ?_
      rw [hrec]
      exact (by decide : ¬ nonTerminal "completed")
  · intro caller emergencyId now p hok
    obtain ⟨e, he, hcase⟩ := timeoutAdvance_shape hok
    rcases hcase with ⟨hst, hrec, hstate⟩ | ⟨hst, hrec, hem, hac, hrel⟩
    · unfold activeInv
      rw [hstate]
      refine kvSet_forall_nodup hnd ?_ ?_
      · intro pr hm hne
        exact hinv pr hm
      · refine iff_of_true ((hinv _ (mem_of_kvGet he)).mpr (by rw [hst]; decide)) ?_
        rw [hrec]
        exact (by decide : nonTerminal "patient_loaded")
    · unfold activeInv
      rw [hem, hac]
      refine kvSet_forall_nodup hnd ?_ ?_
      · intro pr hm hne
        exact (mem_activeRemove.trans (and_iff_left hne)).trans (hinv pr hm)
      · refine iff_of_false (fun hmem => (mem_activeRemove.mp hmem).2 rfl) ?_
        rw [hrec]
        exact (by decide : ¬ nonTerminal "completed")
  · intro caller emergencyId ct now p hok
    obtain ⟨e, he, hrole, hcase⟩ := hospitalConfirm_shape hok
    rcases hcase with ⟨hct, hst, hrec, hstate⟩ | ⟨hct, hst, hrec, hem, hac, hrel⟩
    · unfold activeInv
      rw [hstate]
      refine kvSet_forall_nodup hnd ?_ ?_
      · intro pr hm hne
        exact hinv pr hm
      · refine iff_of_true ((hinv _ (mem_of_kvGet he)).mpr (by rw [hst]; decide)) ?_
        rw [hrec]
        exact (by decide : nonTerminal "patient_loaded")
    · unfold activeInv
      rw [hem, hac]
      refine kvSet_forall_nodup hnd ?_ ?_
      · intro pr hm hne
        exact (mem_activeRemove.trans (and_iff_left hne)).trans (hinv pr hm)
      · refine iff_of_false (fun hmem => (mem_activeRemove.mp hmem).2 rfl) ?_
        rw [hrec]
        exact (by decide : ¬ nonTerminal "completed")

/-- C7 witness: the invariant after each operation along the concrete
lifecycle walk — creation, assignment, a cancel from the gate, direct
arrival confirmation, direct completion confirmation, a timed-out second
gate, and a facility-proxy arrival confirmation. -/
theorem c7_active_index_invariant_witness :
    activeInv (createEmergency demoState0 demoPatient 1000 none none "help").1 ∧
    activeInv (resState (assignEmergency demoCreated demoHospital demoId
      (some "u1") (some "h1") (some "10 mins") 2000) demoState0) ∧
    activeInv (resState (updateEmergencyStatus demoAtScene demoId "cancelled" none 5000)
      demoState0) ∧
    activeInv (resState (confirmArrival demoAtScene demoPatient demoId 6000)
      demoState0) ∧
    activeInv (resState (confirmCompletion demoAtHospital demoHospital demoId 9000)
      demoState0) ∧
    activeInv (resState (timeoutAdvance demoAtHospital demoAmbulance demoId 1808000)
      demoState0) ∧
    activeInv (resState (hospitalConfirm demoAtScene demoHospital demoId "arrival" 4500)
      demoState0) := by
  refine ⟨(c7_active_index_invariant demoState0 (by decide) (by decide)).1
      demoPatient 1000 none none "help",
    (c7_active_index_invariant demoCreated (by decide) (by decide)).2.1
      demoHospital demoId (some "u1") (some "h1") (some "10 mins") 2000 _ _ rfl
      (by decide) rfl,
    (c7_active_index_invariant demoAtScene (by decide) (by decide)).2.2.1
      demoId "cancelled" none 5000 _ _ rfl (by decide) rfl,
    (c7_active_index_invariant demoAtScene (by decide) (by decide)).2.2.2.1
      demoPatient demoId 6000 _ rfl,
    (c7_active_index_invariant demoAtHospital (by decide) (by decide)).2.2.2.2.1
      demoHospital demoId 9000 _ rfl,
    (c7_active_index_invariant demoAtHospital (by decide) (by decide)).2.2.2.2.2.1
      demoAmbulance demoId 1808000 _ rfl,
    (c7_active_index_invariant demoAtScene (by decide) (by decide)).2.2.2.2.2.2
      demoHospital demoId "arrival" 4500 _ rfl⟩

/-- C9 counterexample: the claim says that for every record, after
`assign` names a unit, any later operation sequence reaching `completed`
or `cancelled` leaves that unit available with a null assignment.  The
first assign marks `u1` busy; a second assign (which the handler permits)
renames the record's unit to `u2`; completing the record then releases
`u2` — and `u1` stays `busy`, still pointing at the record. -/
theorem c9_counterexample :
    (kvGet demoAssigned.profiles "u1").map Profile.status = some "busy" ∧
    (kvGet demoReassignCompleted.emergencies demoId).map Emergency.status =
      some "completed" ∧
    (kvGet demoReassignCompleted.profiles "u1").map Profile.status = some "busy" ∧
    (kvGet demoReassignCompleted.profiles "u1").map Profile.currentEmergency =
      some (some demoId) ∧
    (kvGet demoReassignCompleted.profiles "u2").map Profile.status =
      some "available" := by
  exact ⟨rfl, rfl, rfl, rfl, rfl⟩

/-- C9 amended: `assign` marks the named unit (when its profile resolves)
busy with `currentAssignment` pointing at the record; and every operation
that takes the record to `completed` or `cancelled` releases the unit the
record names at that moment — available with a null assignment — provided
its profile resolves.  The round-trip therefore holds for the unit still
named on the record when it reaches a terminal status; a unit displaced
by an intervening re-assign is not released (the counterexample). -/
theorem c9_unit_availability_roundtrip :
    (∀ s caller emergencyId aid hid eta now (e : Emergency) p ap,
      kvGet s.emergencies emergencyId = some e →
      kvGet s.profiles (jsOrStr aid caller.id) = some ap →
      assignEmergency s caller emergencyId aid hid eta now = .ok p →
      kvGet p.1.profiles (jsOrStr aid caller.id) =
        some { ap with status := "busy", currentEmergency := some emergencyId }) ∧
    (∀ s emergencyId target notes now (e : Emergency) p aid ap,
      kvGet s.emergencies emergencyId = some e →
      (target = "completed" ∨ target = "cancelled") →
      e.ambulanceId = some aid → aid ≠ "" →
      kvGet s.profiles aid = some ap →
      updateEmergencyStatus s emergencyId target notes now = .ok p →
      kvGet p.1.profiles aid =
        some { ap with status := "available", currentEmergency := none }) ∧
    (∀ s caller emergencyId now p aid ap,
      confirmCompletion s caller emergencyId now = .ok p →
      p.2.ambulanceId = some aid → aid ≠ "" →
      kvGet s.profiles aid = some ap →
      kvGet p.1.profiles aid =
        some { ap with status := "available", currentEmergency := none }) ∧
    (∀ s caller emergencyId now p aid ap,
      hospitalConfirm s caller emergencyId "completion" now = .ok p →
      p.2.ambulanceId = some aid → aid ≠ "" →
      kvGet s.profiles aid = some ap →
      kvGet p.1.profiles aid =
        some { ap with status := "available", currentEmergency := none }) ∧
    (∀ s caller emergencyId now p aid ap,
      timeoutAdvance s caller emergencyId now = .ok p →
      p.2.status = "completed" →
      p.2.ambulanceId = some aid → aid ≠ "" →
      kvGet s.profiles aid = some ap →
      kvGet p.1.profiles aid =
        some { ap with status := "available", currentEmergency := none }) := by
  refine ⟨?_, ?_, ?_, ?_, ?_⟩
  · intro s caller emergencyId aid hid eta now e p ap he hap hok
    obtain ⟨st, aw, f1, f2, f3, f4, hem, hac, hprof⟩ := assign_shape he hok
    exact hprof ap hap
  · intro s emergencyId target notes now e p aid ap he ht hga hne hap hok
    obtain ⟨st, amb, f1, f2, f3, f4, aw, hem, hac, hrel⟩ := update_shape he hok
    exact hrel ht aid ap hga hne hap
  · intro s caller emergencyId now p aid ap hok hga hne hap
    obtain ⟨e, he, hst, hauth, hrec, hem, hac, hrel⟩ := confirmCompletion_shape hok
    rw [hrec] at hga
    exact hrel aid ap hga hne hap
  · intro s caller emergencyId now p aid ap hok hga hne hap
    obtain ⟨e, he, hrole, hcase⟩ := hospitalConfirm_shape hok
    rcases hcase with ⟨hct, hst, hrec, hstate⟩ | ⟨hct, hst, hrec, hem, hac, hrel⟩
    · exact absurd hct (by decide)
    · rw [hrec] at hga
      exact hrel aid ap hga hne hap
  · intro s caller emergencyId now p aid ap hok hterm hga hne hap
    obtain ⟨e, he, hcase⟩ := timeoutAdvance_shape hok
    rcases hcase with ⟨hst, hrec, hstate⟩ | ⟨hst, hrec, hem, hac, hrel⟩
    · rw [hrec] at hterm
      exact absurd hterm (by decide : ¬ ("patient_loaded" : String) = "completed")
    · rw [hrec] at hga
      exact hrel aid ap hga hne hap

/-- C9 witness: along the demo walk — assign marks `u1` busy; a cancel, a
direct completion, a proxy completion and a timed-out completion each
release `u1`. -/
theorem c9_unit_availability_roundtrip_witness :
    kvGet demoAssigned.profiles "u1" =
      some { demoAmbProfile with status := "busy", currentEmergency := some demoId } ∧
    kvGet (resState (updateEmergencyStatus demoAtScene demoId "cancelled" none 5000)
        demoState0).profiles "u1" =
      some { demoAmbProfile with status := "available", currentEmergency := none } ∧
    kvGet (resState (confirmCompletion demoAtHospital demoHospital demoId 9000)
        demoState0).profiles "u1" =
      some { demoAmbProfile with status := "available", currentEmergency := none } ∧
    kvGet (resState (hospitalConfirm demoAtHospital demoHospital demoId "completion"
        9500) demoState0).profiles "u1" =
      some { demoAmbProfile with status := "available", currentEmergency := none } ∧
    kvGet (resState (timeoutAdvance demoAtHospital demoAmbulance demoId 1808000)
        demoState0).profiles "u1" =
      some { demoAmbProfile with status := "available", currentEmergency := none } := by
  refine ⟨c9_unit_availability_roundtrip.1 demoCreated demoHospital demoId
      (some "u1") (some "h1") (some "10 mins") 2000 _ _ _ rfl rfl rfl,
    c9_unit_availability_roundtrip.2.1 demoAtScene demoId "cancelled" none 5000
      _ _ "u1"
      ({ demoAmbProfile with status := "busy", currentEmergency := some demoId })
      rfl (Or.inr rfl) (by decide) (by decide) (by decide) rfl,
    c9_unit_availability_roundtrip.2.2.1 demoAtHospital demoHospital demoId 9000
      _ "u1"
      ({ demoAmbProfile with status := "busy", currentEmergency := some demoId })
      rfl (by decide) (by decide) (by decide),
    c9_unit_availability_roundtrip.2.2.2.1 demoAtHospital demoHospital demoId 9500
      _ "u1"
      ({ demoAmbProfile with status := "busy", currentEmergency := some demoId })
      rfl (by decide) (by decide) (by decide),
    c9_unit_availability_roundtrip.2.2.2.2 demoAtHospital demoAmbulance demoId 1808000
      _ "u1"
      ({ demoAmbProfile with status := "busy", currentEmergency := some demoId })
      rfl (by decide) (by decide) (by decide) (by decide)⟩

end ResQLink
